import Mathlib

/-!
Verification of the enrollment financial engine of the KyC web service.

Monetary amounts are embedded as rationals; `pyRound2` models Python's
`round(x, 2)` (round half to even at two decimal places); dates are embedded
as integers.  Database collections become association lists, and each service
function becomes a pure function over the records it reads and writes.
-/

namespace KyC

/-- Python `round(x, 2)`: round `100 * x` to the nearest integer, ties to the
even integer, and divide back by 100. -/
def pyRound2 (x : ℚ) : ℚ :=
  let y := 100 * x
  let n := ⌊y⌋
  let frac := y - n
  let r : ℤ :=
    if frac < 1/2 then n
    else if 1/2 < frac then n + 1
    else if n % 2 = 0 then n else n + 1
  (r : ℚ) / 100

/-- Python `int(x)` on a number: truncation toward zero. -/
def pyInt (x : ℚ) : ℤ :=
  if 0 ≤ x then ⌊x⌋ else ⌈x⌉

/-- Source: `models/enums.py` `EstadoPago`. -/
inductive EstadoPago
  | pendiente
  | rechazado
  | aprobado
deriving DecidableEq, Repr

/-- Source: `models/enums.py` `EstadoInscripcion`. -/
inductive EstadoInscripcion
  | pendientePago
  | activo
  | suspendido
  | completado
  | cancelado
deriving DecidableEq, Repr

/-- Source: `models/enums.py` `TipoEstudiante`. -/
inductive TipoEstudiante
  | interno
  | externo
deriving DecidableEq, Repr

/-- Modelled from the spec: the per-requisito state enumeration
(`EstadoRequisito`) is imported by `api/enrollments.py` but its declaration is
missing from the snapshot; states follow spec section 4.6. -/
inductive EstadoRequisito
  | pendiente
  | enProceso
  | aprobado
  | rechazado
deriving DecidableEq, Repr

/-- Source: `models/discount.py` `Discount`.  `fecha_ini` stands for the source field
`fecha_inicio`; dates are integers, `none` meaning no bound. -/
structure Discount where
  porcentaje : ℚ
  lista_estudiantes : List ℕ
  curso_id : Option ℕ
  fecha_ini : Option ℤ
  fecha_fin : Option ℤ
  activo : Bool
deriving DecidableEq, Repr

/-- Source: `Discount.es_valido_en_fecha`: active, and the date inside the optional
validity window. -/
def Discount.es_valido_en_fecha (d : Discount) (fecha : ℤ) : Bool :=
  if !d.activo then false
  else if d.fecha_ini.any (fun fi => decide (fecha < fi)) then false
  else if d.fecha_fin.any (fun ff => decide (ff < fecha)) then false
  else true

/-- Source: `models/course.py` `Course`, restricted to the fields the enrollment
engine reads.  The fields `descuento_id` and `descuento_curso` are modelled
from the spec: `create_enrollment` reads them as the course-level discount
source (reference or literal), but the snapshot's `course.py` does not declare
them. -/
structure Course where
  costo_total_interno : ℚ
  monto_cuota_interno : ℚ
  matricula_interno : ℚ
  costo_total_externo : ℚ
  monto_cuota_externo : ℚ
  matricula_externo : ℚ
  cantidad_cuotas : ℕ
  descuento_general : Option ℚ
  descuento_id : Option ℕ
  descuento_curso : Option ℚ
deriving DecidableEq, Repr

/-- Source: `Course.get_costo_total`. -/
def Course.get_costo_total (c : Course) (es_interno : Bool) : ℚ :=
  if es_interno then c.costo_total_interno else c.costo_total_externo

/-- Source: `Course.get_matricula`. -/
def Course.get_matricula (c : Course) (es_interno : Bool) : ℚ :=
  if es_interno then c.matricula_interno else c.matricula_externo

/-- Source: `models/student.py` `Student`, restricted to what the engine reads. -/
structure Student where
  id : ℕ
  es_estudiante_interno : TipoEstudiante
deriving DecidableEq, Repr

/-- Source: `schemas/enrollment.py` `EnrollmentCreate`. -/
structure EnrollmentCreate where
  estudiante_id : ℕ
  curso_id : ℕ
  descuento_id : Option ℕ
  descuento_personalizado : Option ℚ
deriving DecidableEq, Repr

/-- Modelled from the spec: `models/requisito.py` is absent from the
snapshot; per spec section 4.6 a requisito carries a label, an optional
document URL, a state, the reviewer identity and a rejection reason. -/
structure Requisito where
  descripcion : String
  url : Option String
  estado : EstadoRequisito
  revisado_por : Option String
  motivo_rechazo : Option String
deriving DecidableEq, Repr

/-- Modelled from the spec: `Requisito.rechazar` (called by
`api/enrollments.py` `rechazar_requisito`) sets state RECHAZADO and stamps
reviewer and reason. -/
def Requisito.rechazar (r : Requisito) (reviewer motivo : String) : Requisito :=
  { r with estado := .rechazado, revisado_por := some reviewer,
           motivo_rechazo := some motivo }

/-- Source: `models/enrollment.py` `Enrollment`, restricted to the fields the engine
reads and writes.  `descuento_personalizado` is stored as the resolved
percentage (the creation path always writes a number). -/
structure Enrollment where
  estudiante_id : ℕ
  curso_id : ℕ
  es_estudiante_interno : TipoEstudiante
  costo_total : ℚ
  costo_matricula : ℚ
  cantidad_cuotas : ℕ
  descuento_curso_id : Option ℕ
  descuento_curso_aplicado : ℚ
  descuento_estudiante_id : Option ℕ
  descuento_personalizado : ℚ
  total_a_pagar : ℚ
  total_pagado : ℚ
  saldo_pendiente : ℚ
  estado : EstadoInscripcion
  requisitos : List Requisito
deriving DecidableEq, Repr

/-- The `validar_saldo` field validator of `models/enrollment.py`: the stored
balance agrees with `max 0 (total_a_pagar - total_pagado)` within one cent. -/
def Enrollment.saldoValido (e : Enrollment) : Prop :=
  |e.saldo_pendiente - max 0 (e.total_a_pagar - e.total_pagado)| ≤ 1/100

instance (e : Enrollment) : Decidable e.saldoValido := by
  unfold Enrollment.saldoValido; infer_instance

/-- Source: `Enrollment.calcular_monto_cuota`. -/
def Enrollment.calcular_monto_cuota (e : Enrollment) : ℚ :=
  if e.cantidad_cuotas = 0 then 0
  else (e.total_a_pagar - e.costo_matricula) / (e.cantidad_cuotas : ℚ)

/-- Source: `Enrollment.actualizar_saldo`. -/
def Enrollment.actualizar_saldo (e : Enrollment) (monto_pago_aprobado : ℚ) :
    Enrollment :=
  let tp := e.total_pagado + monto_pago_aprobado
  { e with total_pagado := tp, saldo_pendiente := max 0 (e.total_a_pagar - tp) }

/-- Source: `Enrollment.esta_completamente_pagado`. -/
def Enrollment.esta_completamente_pagado (e : Enrollment) : Bool :=
  decide (e.saldo_pendiente ≤ 1/100)

/-- Result shape of `Enrollment.siguiente_pago` (a dict in the source). -/
structure SiguientePago where
  concepto : String
  numero_cuota : ℤ
  monto_sugerido : ℚ
deriving DecidableEq, Repr

/-- Source: `Enrollment.siguiente_pago`: the amount-based next-payment suggestion.
When `monto_por_cuota = 0` the source would raise ZeroDivisionError; rational
division by zero yields 0 here instead. -/
def Enrollment.siguiente_pago (e : Enrollment) : SiguientePago :=
  if e.esta_completamente_pagado then
    { concepto := "Pago Completado", numero_cuota := 0, monto_sugerido := 0 }
  else if e.total_pagado < e.costo_matricula ∧
      1/100 < e.costo_matricula - e.total_pagado then
    { concepto := "Matrícula", numero_cuota := 0,
      monto_sugerido := pyRound2 (e.costo_matricula - e.total_pagado) }
  else
    let pagado_a_cuotas := max 0 (e.total_pagado - e.costo_matricula)
    let total_a_pagar_cuotas := e.total_a_pagar - e.costo_matricula
    if 0 < e.cantidad_cuotas then
      let monto_por_cuota := total_a_pagar_cuotas / (e.cantidad_cuotas : ℚ)
      let cuotas_pagadas := pyInt (pagado_a_cuotas / monto_por_cuota)
      let siguiente_cuota := cuotas_pagadas + 1
      if (e.cantidad_cuotas : ℤ) ≤ siguiente_cuota then
        { concepto := "Cuota " ++ toString (e.cantidad_cuotas : ℤ),
          numero_cuota := (e.cantidad_cuotas : ℤ),
          monto_sugerido := pyRound2 e.saldo_pendiente }
      else
        { concepto := "Cuota " ++ toString siguiente_cuota,
          numero_cuota := siguiente_cuota,
          monto_sugerido := pyRound2 monto_por_cuota }
    else
      { concepto := "Pago Pendiente", numero_cuota := 1,
        monto_sugerido := pyRound2 e.saldo_pendiente }

/-- Discount collection: id-keyed association list, `Discount.get`. -/
def findDiscount (db : List (ℕ × Discount)) (i : ℕ) : Option Discount :=
  (db.find? (fun p => p.1 == i)).map Prod.snd

/-- Steps 4-5 of `create_enrollment` in `services/enrollment_service.py`:
resolve the course-level discount percentage and reference snapshot.
Priority: reference, else literal, else 0; a found-but-inactive or missing
reference resolves to 0 without consulting the literal. -/
def resolveDescuentoCurso (db : List (ℕ × Discount)) (course : Course) :
    ℚ × Option ℕ :=
  match course.descuento_id with
  | some did =>
    match findDiscount db did with
    | some dObj => if dObj.activo then (dObj.porcentaje, some did) else (0, none)
    | none => (0, none)
  | none =>
    match course.descuento_curso with
    | some c => if c = 0 then (0, none) else (c, none)
    | none => (0, none)

/-- Step 6 of `create_enrollment`: resolve the student-level discount, same
shape as the course-level resolution but reading the request payload. -/
def resolveDescuentoEstudiante (db : List (ℕ × Discount))
    (ein : EnrollmentCreate) : ℚ × Option ℕ :=
  match ein.descuento_id with
  | some did =>
    match findDiscount db did with
    | some dObj => if dObj.activo then (dObj.porcentaje, some did) else (0, none)
    | none => (0, none)
  | none =>
    match ein.descuento_personalizado with
    | some c => if c = 0 then (0, none) else (c, none)
    | none => (0, none)

/-- Whether the student is internal, per `create_enrollment` step 3. -/
def esInterno (student : Student) : Bool :=
  match student.es_estudiante_interno with
  | .interno => true
  | .externo => false

/-- Source: `create_enrollment` (pricing steps 3-7): builds the enrollment with its
price and discount snapshot.  The student and the course are the records the
service fetched; the db-existence and duplicate checks that precede these
steps raise before any write and do not affect the constructed record. -/
def create_enrollment (db : List (ℕ × Discount)) (student : Student)
    (course : Course) (ein : EnrollmentCreate) : Enrollment :=
  let es_interno := esInterno student
  let costo_total := course.get_costo_total es_interno
  let costo_matricula := course.get_matricula es_interno
  let rc := resolveDescuentoCurso db course
  let total_con_descuento_curso := costo_total - costo_total * rc.1 / 100
  let rs := resolveDescuentoEstudiante db ein
  let total_final :=
    total_con_descuento_curso - total_con_descuento_curso * rs.1 / 100
  { estudiante_id := ein.estudiante_id
    curso_id := ein.curso_id
    es_estudiante_interno := student.es_estudiante_interno
    costo_total := costo_total
    costo_matricula := costo_matricula
    cantidad_cuotas := course.cantidad_cuotas
    descuento_curso_id := rc.2
    descuento_curso_aplicado := rc.1
    descuento_estudiante_id := rs.2
    descuento_personalizado := rs.1
    total_a_pagar := pyRound2 total_final
    total_pagado := 0
    saldo_pendiente := pyRound2 total_final
    estado := .pendientePago
    requisitos := [] }

/-- Source: `update_enrollment_descuento` in `services/enrollment_service.py`:
recompute the cascade with a new student-level discount, keeping
`total_pagado`. -/
def update_enrollment_descuento (e : Enrollment)
    (descuento_personalizado : ℚ) : Enrollment :=
  let total_con_descuento_curso :=
    e.costo_total - e.costo_total * e.descuento_curso_aplicado / 100
  let total_final :=
    total_con_descuento_curso -
      total_con_descuento_curso * descuento_personalizado / 100
  let nuevo_saldo := total_final - e.total_pagado
  { e with descuento_personalizado := descuento_personalizado,
           total_a_pagar := pyRound2 total_final,
           saldo_pendiente := pyRound2 (max 0 nuevo_saldo) }

/-- Source: `actualizar_saldo_enrollment` in `services/enrollment_service.py`: the
ledger update run when a payment is approved. -/
def actualizar_saldo_enrollment (e : Enrollment)
    (monto_pago_aprobado : ℚ) : Enrollment :=
  let e1 := e.actualizar_saldo monto_pago_aprobado
  let e2 :=
    if e1.estado = EstadoInscripcion.pendientePago then
      { e1 with estado := .activo }
    else e1
  if e2.esta_completamente_pagado then { e2 with estado := .completado } else e2

/-- Source: `models/payment.py` `Payment`, restricted to the fields the engine reads
and writes (the declared voucher data fields are opaque payload and are
dropped; `fecha_verificacion` is an integer timestamp). -/
structure Payment where
  id : ℕ
  inscripcion_id : ℕ
  estudiante_id : ℕ
  curso_id : ℕ
  concepto : String
  numero_cuota : Option ℤ
  numero_transaccion : String
  cantidad_pago : ℚ
  comprobante_url : String
  estado_pago : EstadoPago
  fecha_verificacion : Option ℤ
  verificado_por : Option String
  motivo_rechazo : Option String
deriving DecidableEq, Repr

/-- Source: `Payment.aprobar_pago` in `models/payment.py`. -/
def Payment.aprobar (p : Payment) (admin_username : String) (now : ℤ) :
    Payment :=
  { p with estado_pago := .aprobado, fecha_verificacion := some now,
           verificado_por := some admin_username, motivo_rechazo := none }

/-- Source: `Payment.rechazar_pago` in `models/payment.py`. -/
def Payment.rechazar (p : Payment) (admin_username motivo : String)
    (now : ℤ) : Payment :=
  { p with estado_pago := .rechazado, fecha_verificacion := some now,
           verificado_por := some admin_username, motivo_rechazo := some motivo }

/-- A payment is active when PENDING or APPROVED (the states that cover an
obligation slot). -/
def Payment.activo (p : Payment) : Bool :=
  p.estado_pago == EstadoPago.pendiente || p.estado_pago == EstadoPago.aprobado

/-- Result shape of `get_next_pending_payment` (a dict in the source). -/
structure NextPayment where
  concepto : String
  numero_cuota : Option ℤ
  monto_sugerido : ℚ
deriving DecidableEq, Repr

/-- The covered-slot test of `get_next_pending_payment`: some PENDING or
APPROVED payment of the enrollment carries this `(concepto, numero_cuota)`
pair. -/
def cubierto (eid : ℕ) (pagos : List Payment) (c : String) (n : Option ℤ) :
    Bool :=
  (pagos.filter (fun p => p.inscripcion_id == eid && p.activo)).any
    (fun p => p.concepto == c && p.numero_cuota == n)

/-- Source: `get_next_pending_payment` in `services/payment_service.py`: checklist
(gap-filling) resolver for the next unmet obligation.  `eid` is the
enrollment's id, `pagos` the payment collection. -/
def get_next_pending_payment (e : Enrollment) (eid : ℕ)
    (pagos : List Payment) : Option NextPayment :=
  if 0 < e.costo_matricula && !cubierto eid pagos ("Matrícula") none then
    some { concepto := "Matrícula", numero_cuota := none,
           monto_sugerido := e.costo_matricula }
  else if 0 < e.cantidad_cuotas then
    let monto_cuota := e.calcular_monto_cuota
    match (List.range' 1 e.cantidad_cuotas).find? (fun (i : ℕ) =>
        !cubierto eid pagos ("Cuota " ++ toString i) (some (i : ℤ))) with
    | some i =>
      some { concepto := "Cuota " ++ toString i, numero_cuota := some (i : ℤ),
             monto_sugerido := monto_cuota }
    | none => none
  else none

/-- Error kinds raised by the services (ValueError / AttributeError from the
service layer, ValidationError from a pydantic schema). -/
inductive PyError
  | valueError
  | attributeError
  | validationError
deriving DecidableEq, Repr

/-- The field names declared on the `PaymentCreate` schema in
`schemas/payment.py`. -/
def paymentCreateFields : List String :=
  ["inscripcion_id", "concepto", "numero_cuota", "numero_transaccion",
   "cantidad_pago", "comprobante_url"]

/-- Source: `schemas/payment.py` `PaymentCreate`: the submission payload. -/
structure PaymentCreate where
  inscripcion_id : ℕ
  concepto : Option String
  numero_cuota : Option ℤ
  numero_transaccion : String
  cantidad_pago : Option ℚ
  comprobante_url : String
deriving DecidableEq, Repr

/-- Attribute access on a `PaymentCreate` instance by name: AttributeError
when the schema does not declare the field. -/
def paymentCreateGetAttr (name : String) : Except PyError Unit :=
  if name ∈ paymentCreateFields then .ok () else .error .attributeError

/-- The six voucher attributes `create_payment` reads off `payment_in` while
building the `Payment` record; each read goes through
`paymentCreateGetAttr`. -/
def readVoucherAttrs : Except PyError Unit := do
  paymentCreateGetAttr ("remitente")
  paymentCreateGetAttr ("fecha_comprobante")
  paymentCreateGetAttr ("monto_comprobante")
  paymentCreateGetAttr ("banco")
  paymentCreateGetAttr ("glosa")
  paymentCreateGetAttr ("cuenta_destino")

/-- Source: `create_payment` in `services/payment_service.py`.  `enrollment?` is the
result of `Enrollment.get(payment_in.inscripcion_id)`. -/
def create_payment (enrollment? : Option Enrollment) (pagos : List Payment)
    (payment_in : PaymentCreate) (student_id : ℕ) (newId : ℕ) :
    Except PyError Payment :=
  match enrollment? with
  | none => .error .valueError
  | some e =>
    if e.estudiante_id ≠ student_id then .error .valueError
    else
      match get_next_pending_payment e payment_in.inscripcion_id pagos with
      | none => .error .valueError
      | some np =>
        match readVoucherAttrs with
        | .error err => .error err
        | .ok _ =>
          .ok { id := newId
                inscripcion_id := payment_in.inscripcion_id
                estudiante_id := e.estudiante_id
                curso_id := e.curso_id
                concepto := np.concepto
                numero_cuota := np.numero_cuota
                numero_transaccion := payment_in.numero_transaccion
                cantidad_pago := np.monto_sugerido
                comprobante_url := payment_in.comprobante_url
                estado_pago := .pendiente
                fecha_verificacion := none
                verificado_por := none
                motivo_rechazo := none }

/-- System state for the payment workflow: the one enrollment under play (with
its id) and the payment collection; `nextId` feeds fresh payment ids. -/
structure SysState where
  eid : ℕ
  enrollment : Enrollment
  pagos : List Payment
  nextId : ℕ
deriving DecidableEq, Repr

/-- Source: `Payment.get(pid)` over the collection. -/
def findPayment (pagos : List Payment) (pid : ℕ) : Option Payment :=
  pagos.find? (fun p => p.id == pid)

/-- Payment submission at the state level: `Enrollment.get` succeeds exactly
on the state's enrollment id, and the created payment is appended.  Returns
the raised error (if any) and the post state. -/
def submit_payment (s : SysState) (payment_in : PaymentCreate)
    (student_id : ℕ) : Option PyError × SysState :=
  let enrollment? :=
    if payment_in.inscripcion_id = s.eid then some s.enrollment else none
  match create_payment enrollment? s.pagos payment_in student_id s.nextId with
  | .ok p => (none, { s with pagos := s.pagos ++ [p], nextId := s.nextId + 1 })
  | .error err => (some err, s)

/-- The duplicate-approval guard of `aprobar_pago`: another payment with the
same `(inscripcion, concepto, numero_cuota)` is already APPROVED. -/
def existeAprobadoDuplicado (pagos : List Payment) (p : Payment) : Bool :=
  pagos.any (fun q => q.id != p.id && q.inscripcion_id == p.inscripcion_id &&
    q.concepto == p.concepto && q.numero_cuota == p.numero_cuota &&
    q.estado_pago == EstadoPago.aprobado)

/-- Source: `aprobar_pago` in `services/payment_service.py`: approval flips the
payment first and only then updates the ledger; when the referenced enrollment
is missing the ledger update raises with the payment already saved. -/
def aprobar_pago (s : SysState) (pid : ℕ) (admin_username : String)
    (now : ℤ) : Option PyError × SysState :=
  match findPayment s.pagos pid with
  | none => (some .valueError, s)
  | some p =>
    if p.estado_pago ≠ EstadoPago.pendiente then (some .valueError, s)
    else if existeAprobadoDuplicado s.pagos p then (some .valueError, s)
    else
      let pagos' := s.pagos.map
        (fun q => if q.id == pid then q.aprobar admin_username now else q)
      if p.inscripcion_id = s.eid then
        let e' := actualizar_saldo_enrollment s.enrollment p.cantidad_pago
        (none, { s with pagos := pagos', enrollment := e' })
      else (some .valueError, { s with pagos := pagos' })

/-- Source: `rechazar_pago` in `services/payment_service.py`. -/
def rechazar_pago (s : SysState) (pid : ℕ) (admin_username motivo : String)
    (now : ℤ) : Option PyError × SysState :=
  match findPayment s.pagos pid with
  | none => (some .valueError, s)
  | some p =>
    if p.estado_pago ≠ EstadoPago.pendiente then (some .valueError, s)
    else
      let pagos' := s.pagos.map
        (fun q => if q.id == pid then q.rechazar admin_username motivo now
                  else q)
      (none, { s with pagos := pagos' })

/-- The PUT `/payments/{id}/rechazar` route: the `PaymentRejection` schema
(`motivo` with `min_length=1`) is validated before the service runs. -/
def rechazar_pago_endpoint (s : SysState) (pid : ℕ)
    (admin_username motivo : String) (now : ℤ) : Option PyError × SysState :=
  if motivo.length < 1 then (some .validationError, s)
  else rechazar_pago s pid admin_username motivo now

/-- The operations of the payment workflow. -/
inductive Op
  | submit (payment_in : PaymentCreate) (student_id : ℕ)
  | approve (pid : ℕ) (admin_username : String) (now : ℤ)
  | reject (pid : ℕ) (admin_username motivo : String) (now : ℤ)

/-- Apply one operation, keeping whatever state the operation left. -/
def applyOp (s : SysState) (op : Op) : SysState :=
  match op with
  | .submit payment_in sid => (submit_payment s payment_in sid).2
  | .approve pid a now => (aprobar_pago s pid a now).2
  | .reject pid a m now => (rechazar_pago_endpoint s pid a m now).2

/-- Run a sequence of operations. -/
def runOps (s : SysState) (ops : List Op) : SysState :=
  ops.foldl applyOp s

/-- The duplicate-obligation invariant: each (enrollment, concepto,
numero_cuota) tuple has at most one PENDING-or-APPROVED payment. -/
def atMostOneActive (pagos : List Payment) : Prop :=
  ∀ eid c n,
    (pagos.filter (fun p => p.inscripcion_id == eid && p.concepto == c &&
      p.numero_cuota == n && p.activo)).length ≤ 1

/-- Source: `rechazar_requisito` in `api/enrollments.py`: index-range, document and
state checks, then `Requisito.rechazar`. -/
def rechazar_requisito (e : Enrollment) (index : ℕ)
    (username motivo : String) : Except PyError Enrollment :=
  if h : index < e.requisitos.length then
    let r := e.requisitos.get ⟨index, h⟩
    if r.url = none then .error .valueError
    else if r.estado ≠ EstadoRequisito.enProceso then .error .valueError
    else .ok { e with requisitos :=
      e.requisitos.set index (r.rechazar username motivo) }
  else .error .valueError

/-! Spec-side definitions, written from the claims' wording, for comparison
with the embedded code. -/

/-- The claim's covered set: the `(concept, installment-index)` pairs of the
enrollment's PENDING or APPROVED payments. -/
def coveredPairs (eid : ℕ) (pagos : List Payment) :
    List (String × Option ℤ) :=
  (pagos.filter (fun p => p.inscripcion_id == eid && p.activo)).map
    (fun p => (p.concepto, p.numero_cuota))

/-- The claim's next-obligation function: the down payment whenever
`costo_matricula > 0` and uncovered, otherwise the lowest-indexed uncovered
installment in `1..cantidad_cuotas` with amount
`(total_a_pagar - costo_matricula) / cantidad_cuotas`, otherwise `none`. -/
def nextObligationSpec (e : Enrollment) (eid : ℕ) (pagos : List Payment) :
    Option NextPayment :=
  if 0 < e.costo_matricula ∧
      ("Matrícula", (none : Option ℤ)) ∉ coveredPairs eid pagos then
    some { concepto := "Matrícula", numero_cuota := none,
           monto_sugerido := e.costo_matricula }
  else
    match (List.range' 1 e.cantidad_cuotas).find? (fun (i : ℕ) =>
        decide (("Cuota " ++ toString i, (some (i : ℤ) : Option ℤ)) ∉
          coveredPairs eid pagos)) with
    | some i =>
      some { concepto := "Cuota " ++ toString i, numero_cuota := some (i : ℤ),
             monto_sugerido :=
               (e.total_a_pagar - e.costo_matricula) / (e.cantidad_cuotas : ℚ) }
    | none => none

/-- The claim's agreement relation between the record-based resolver and the
amount-based suggestion: no remaining obligation corresponds to the completed
marker; otherwise concept and amount agree, with Matrícula's index rendered 0
by the suggestion and `none` by the resolver. -/
def nextAgrees (np? : Option NextPayment) (sp : SiguientePago) : Prop :=
  match np? with
  | none => sp.concepto = "Pago Completado"
  | some np =>
    np.concepto = sp.concepto ∧ np.monto_sugerido = sp.monto_sugerido ∧
      np.numero_cuota.getD 0 = sp.numero_cuota

/-- The canonical APPROVED down-payment record of an enrollment. -/
def matriculaPago (eid : ℕ) (e : Enrollment) : Payment :=
  { id := 0, inscripcion_id := eid, estudiante_id := e.estudiante_id,
    curso_id := e.curso_id, concepto := "Matrícula", numero_cuota := none,
    numero_transaccion := "", cantidad_pago := e.costo_matricula,
    comprobante_url := "", estado_pago := .aprobado,
    fecha_verificacion := none, verificado_por := none, motivo_rechazo := none }

/-- The canonical APPROVED record of installment `i` of an enrollment. -/
def cuotaPago (eid : ℕ) (e : Enrollment) (i : ℕ) : Payment :=
  { id := i, inscripcion_id := eid, estudiante_id := e.estudiante_id,
    curso_id := e.curso_id, concepto := "Cuota " ++ toString i,
    numero_cuota := some (i : ℤ), numero_transaccion := "",
    cantidad_pago := e.calcular_monto_cuota, comprobante_url := "",
    estado_pago := .aprobado, fecha_verificacion := none,
    verificado_por := none, motivo_rechazo := none }

/-- Canonical payment history: the down payment (when one is due) and
installments `1..k`, all APPROVED. -/
def canonicalPagos (eid : ℕ) (e : Enrollment) (k : ℕ) : List Payment :=
  (if 0 < e.costo_matricula then [matriculaPago eid e] else []) ++
    (List.range' 1 k).map (cuotaPago eid e)

/-! Concrete fixtures used by the examples, counterexamples and witnesses. -/

/-- A course priced 3000 internal with a 10 percent course-level literal
discount. -/
def fixCourse : Course :=
  { costo_total_interno := 3000, monto_cuota_interno := 500,
    matricula_interno := 500, costo_total_externo := 5000,
    monto_cuota_externo := 900, matricula_externo := 500,
    cantidad_cuotas := 5, descuento_general := none, descuento_id := none,
    descuento_curso := some 10 }

/-- An internal student. -/
def fixStudent : Student := { id := 1, es_estudiante_interno := .interno }

/-- An enrollment request with a 5 percent student-level literal discount. -/
def fixEin : EnrollmentCreate :=
  { estudiante_id := 1, curso_id := 2, descuento_id := none,
    descuento_personalizado := some 5 }

/-- An enrollment with total 1000, down payment 200 and 4 installments of
200, nothing paid yet. -/
def fixEnrollment : Enrollment :=
  { estudiante_id := 1, curso_id := 2, es_estudiante_interno := .interno,
    costo_total := 1000, costo_matricula := 200, cantidad_cuotas := 4,
    descuento_curso_id := none, descuento_curso_aplicado := 0,
    descuento_estudiante_id := none, descuento_personalizado := 0,
    total_a_pagar := 1000, total_pagado := 0, saldo_pendiente := 1000,
    estado := .pendientePago, requisitos := [] }

/-- A payment record against enrollment 7 of `fixEnrollment`'s shape. -/
def fixPago (i : ℕ) (c : String) (n : Option ℤ) (st : EstadoPago) : Payment :=
  { id := i, inscripcion_id := 7, estudiante_id := 1, curso_id := 2,
    concepto := c, numero_cuota := n, numero_transaccion := "t",
    cantidad_pago := 200, comprobante_url := "u", estado_pago := st,
    fecha_verificacion := none, verificado_por := none,
    motivo_rechazo := none }

/-- Payment history with the down payment and installments 1 and 3 covered
and installment 2 rejected. -/
def fixPagosHueco : List Payment :=
  [fixPago 1 ("Matrícula") none .aprobado,
   fixPago 2 ("Cuota 1") (some 1) .aprobado,
   fixPago 3 ("Cuota 2") (some 2) .rechazado,
   fixPago 4 ("Cuota 3") (some 3) .pendiente]

/-- A referenced discount of 50 percent, still flagged active but whose
validity window ended at date 10. -/
def fixExpiredDiscount : Discount :=
  { porcentaje := 50, lista_estudiantes := [], curso_id := none,
    fecha_ini := none, fecha_fin := some 10, activo := true }

/-- A referenced discount of 50 percent, inactive. -/
def fixInactiveDiscount : Discount :=
  { porcentaje := 50, lista_estudiantes := [], curso_id := none,
    fecha_ini := none, fecha_fin := none, activo := false }

/-- A referenced discount of 20 percent, active, no window. -/
def fixActiveDiscount : Discount :=
  { porcentaje := 20, lista_estudiantes := [], curso_id := none,
    fecha_ini := none, fecha_fin := none, activo := true }

/-- An enrollment request referencing discount 7 while also supplying
literal 5. -/
def fixEinRef : EnrollmentCreate :=
  { estudiante_id := 1, curso_id := 2, descuento_id := some 7,
    descuento_personalizado := some 5 }

/-- A system state: `fixEnrollment` under id 7 with a given payment list. -/
def fixState (pagos : List Payment) : SysState :=
  { eid := 7, enrollment := fixEnrollment, pagos := pagos, nextId := 100 }

/-- A requisito with an uploaded document awaiting review. -/
def fixRequisito : Requisito :=
  { descripcion := "Carnet", url := some ("http.example/doc.pdf"),
    estado := .enProceso, revisado_por := none, motivo_rechazo := none }

/-- An enrollment holding the single requisito `fixRequisito`. -/
def fixEnrollmentReq : Enrollment :=
  { fixEnrollment with requisitos := [fixRequisito] }

/-- The `fixEnrollment` ledger after the down payment and installment 1 were paid. -/
def fixEnrollmentMid : Enrollment :=
  { fixEnrollment with total_pagado := 400, saldo_pendiente := 600 }

/-- The `fixEnrollmentReq` record after its requisito is rejected by `adm` with reason
`borroso`. -/
def fixEnrollmentReqPost : Enrollment :=
  { fixEnrollment with requisitos :=
      [Requisito.mk ("Carnet") (some ("http.example/doc.pdf"))
        EstadoRequisito.rechazado (some ("adm")) (some ("borroso"))] }

/-- A submission payload targeting enrollment 7. -/
def fixPC : PaymentCreate :=
  { inscripcion_id := 7, concepto := none, numero_cuota := none,
    numero_transaccion := "t", cantidad_pago := none, comprobante_url := "u" }

/-- Payment history with installment 1 APPROVED (id 1) and a duplicate
PENDING payment for the same slot (id 2). -/
def fixPagosDup : List Payment :=
  [fixPago 1 ("Cuota 1") (some 1) .aprobado,
   fixPago 2 ("Cuota 1") (some 1) .pendiente]

/-- A state holding one PENDING down-payment record. -/
def fixPagosPend : List Payment := [fixPago 1 ("Matrícula") none .pendiente]

/-! Helper lemmas. -/

theorem pyRound2_close (x : ℚ) : |pyRound2 x - x| ≤ 1/200 := by
  have hfl : ((⌊100 * x⌋ : ℤ) : ℚ) ≤ 100 * x := Int.floor_le _
  have hfu : 100 * x < ((⌊100 * x⌋ : ℤ) : ℚ) + 1 := Int.lt_floor_add_one _
  simp only [pyRound2]
  split_ifs with h1 h2 h3 <;>
    (rw [abs_le]; constructor <;> (push_cast at *; linarith))

theorem pyRound2_eq_self {x : ℚ} {n : ℤ} (h : (n : ℚ) = 100 * x) :
    pyRound2 x = x := by
  simp only [pyRound2, ← h, Int.floor_intCast, sub_self]
  rw [if_pos (by norm_num : (0 : ℚ) < 1/2), h]
  ring

theorem pyRound2_maxZero_close (tf tp : ℚ) :
    |pyRound2 (max 0 (tf - tp)) - max 0 (pyRound2 tf - tp)| ≤ 1/100 := by
  have h1 := pyRound2_close (max 0 (tf - tp))
  have h2 := pyRound2_close tf
  have h3 : |max 0 (tf - tp) - max 0 (pyRound2 tf - tp)| ≤
      |(tf - tp) - (pyRound2 tf - tp)| := by
    rw [max_comm 0 (tf - tp), max_comm 0 (pyRound2 tf - tp)]
    exact abs_max_sub_max_le_abs _ _ _
  have h4 : (tf - tp) - (pyRound2 tf - tp) = -(pyRound2 tf - tf) := by ring
  have h5 : |max 0 (tf - tp) - max 0 (pyRound2 tf - tp)| ≤ 1/200 := by
    rw [h4, abs_neg] at h3; exact le_trans h3 h2
  calc |pyRound2 (max 0 (tf - tp)) - max 0 (pyRound2 tf - tp)|
      ≤ |pyRound2 (max 0 (tf - tp)) - max 0 (tf - tp)| +
        |max 0 (tf - tp) - max 0 (pyRound2 tf - tp)| := abs_sub_le _ _ _
    _ ≤ 1/200 + 1/200 := add_le_add h1 h5
    _ = 1/100 := by norm_num

theorem fix_create_tap :
    (create_enrollment [] fixStudent fixCourse fixEin).total_a_pagar = 2565 := by
  have h : (create_enrollment [] fixStudent fixCourse fixEin).total_a_pagar =
      pyRound2 2565 := by
    simp only [create_enrollment, fixStudent, fixCourse, fixEin,
      resolveDescuentoCurso, resolveDescuentoEstudiante, esInterno,
      Course.get_costo_total]
    norm_num
  rw [h, pyRound2_eq_self (show ((256500 : ℤ) : ℚ) = 100 * 2565 by norm_num)]

/-! Claim theorems. -/

/-- C1.  For every enrollment creation with base price B selected from the
course's price list by the student's type, and resolved course-level and
student-level discount percentages c and s (stored on the enrollment as
`descuento_curso_aplicado` and `descuento_personalizado`), the stored
`total_a_pagar` equals `round(B * (1 - c/100) * (1 - s/100), 2)`: the two
discounts cascade multiplicatively, course first.  In particular B = 3000,
c = 10, s = 5 yields 2565.00, not 2550.00. -/
theorem c1_cascading_discount :
    (∀ (db : List (ℕ × Discount)) (student : Student) (course : Course)
      (ein : EnrollmentCreate),
      (create_enrollment db student course ein).total_a_pagar =
        pyRound2 (course.get_costo_total (esInterno student) *
          (1 - (create_enrollment db student course ein).descuento_curso_aplicado / 100) *
          (1 - (create_enrollment db student course ein).descuento_personalizado / 100))) ∧
    (create_enrollment [] fixStudent fixCourse fixEin).total_a_pagar = 2565 ∧
    (create_enrollment [] fixStudent fixCourse fixEin).total_a_pagar ≠ 2550 := by
  refine ⟨fun db student course ein => ?_, fix_create_tap,
    by rw [fix_create_tap]; norm_num⟩
  simp only [create_enrollment]
  congr 1
  ring

/-- C2.  Each of the three enrollment-writing operations (creation, the
payment-approval ledger update, the admin edit of the student-level discount)
leaves the enrollment satisfying
`saldo_pendiente == max(0, total_a_pagar - total_pagado)` within 0.01; at
creation the pydantic model additionally rejects a negative `total_a_pagar`,
which is the hypothesis of the first part. -/
theorem c2_saldo_invariant :
    (∀ (db : List (ℕ × Discount)) (student : Student) (course : Course)
      (ein : EnrollmentCreate),
      0 ≤ (create_enrollment db student course ein).total_a_pagar →
      (create_enrollment db student course ein).saldoValido) ∧
    (∀ (e : Enrollment) (monto : ℚ),
      (actualizar_saldo_enrollment e monto).saldoValido) ∧
    (∀ (e : Enrollment) (d : ℚ),
      (update_enrollment_descuento e d).saldoValido) := by
  refine ⟨fun db student course ein h => ?_, fun e monto => ?_, fun e d => ?_⟩
  · simp only [create_enrollment] at h ⊢
    unfold Enrollment.saldoValido
    simp only [sub_zero]
    rw [max_eq_right h, sub_self, abs_zero]
    norm_num
  · unfold Enrollment.saldoValido
    simp only [actualizar_saldo_enrollment, Enrollment.actualizar_saldo]
    have hgoal : ∀ e' : Enrollment,
        e'.saldo_pendiente = max 0 (e'.total_a_pagar - e'.total_pagado) →
        e'.saldoValido := by
      intro e' he'
      unfold Enrollment.saldoValido
      rw [he', sub_self, abs_zero]
      norm_num
    split_ifs <;> exact hgoal _ rfl
  · unfold Enrollment.saldoValido
    simp only [update_enrollment_descuento]
    exact pyRound2_maxZero_close _ _

/-- Witness for C2: the first part at the concrete 3000/10/5 creation. -/
theorem c2_saldo_invariant_witness :
    0 ≤ (create_enrollment [] fixStudent fixCourse fixEin).total_a_pagar ∧
    (create_enrollment [] fixStudent fixCourse fixEin).saldoValido :=
  ⟨by rw [fix_create_tap]; norm_num,
   c2_saldo_invariant.1 [] fixStudent fixCourse fixEin
     (by rw [fix_create_tap]; norm_num)⟩

/-- C6.  Approving a payment adds its amount to `total_pagado`, recomputes
`saldo_pendiente = max(0, total_a_pagar - total_pagado)`, and drives the
state: COMPLETADO whenever the new balance is within the 0.01 tolerance of
zero (regardless of the prior state), otherwise ACTIVO when the state was
PENDIENTE_PAGO, otherwise unchanged; `total_a_pagar` is untouched. -/
theorem c6_ledger_update (e : Enrollment) (monto : ℚ) :
    (actualizar_saldo_enrollment e monto).total_pagado =
      e.total_pagado + monto ∧
    (actualizar_saldo_enrollment e monto).saldo_pendiente =
      max 0 (e.total_a_pagar - (e.total_pagado + monto)) ∧
    (actualizar_saldo_enrollment e monto).total_a_pagar = e.total_a_pagar ∧
    (actualizar_saldo_enrollment e monto).estado =
      (if (actualizar_saldo_enrollment e monto).saldo_pendiente ≤ 1/100 then
        EstadoInscripcion.completado
      else if e.estado = EstadoInscripcion.pendientePago then
        EstadoInscripcion.activo
      else e.estado) := by
  simp only [actualizar_saldo_enrollment, Enrollment.actualizar_saldo,
    Enrollment.esta_completamente_pagado, decide_eq_true_eq]
  split_ifs <;> simp_all

theorem readVoucherAttrs_error :
    readVoucherAttrs = .error .attributeError := rfl

theorem create_payment_error (enrollment? : Option Enrollment)
    (pagos : List Payment) (payment_in : PaymentCreate)
    (student_id newId : ℕ) :
    ∃ err, create_payment enrollment? pagos payment_in student_id newId =
      .error err := by
  cases enrollment? with
  | none => exact ⟨.valueError, rfl⟩
  | some e =>
    simp only [create_payment]
    split_ifs with h1
    · exact ⟨.valueError, rfl⟩
    · cases hnp : get_next_pending_payment e payment_in.inscripcion_id pagos with
      | none => exact ⟨.valueError, rfl⟩
      | some np =>
        simp only [readVoucherAttrs_error]
        exact ⟨.attributeError, rfl⟩

/-- C9.  In this snapshot no execution of payment submission persists a
Payment: `create_payment` always returns an error, and when the
enrollment-existence, ownership and next-obligation checks all pass the
error is precisely the AttributeError raised by reading the voucher
attributes that `PaymentCreate` does not declare. -/
theorem c9_submission_never_persists :
    (∀ (enrollment? : Option Enrollment) (pagos : List Payment)
      (payment_in : PaymentCreate) (student_id newId : ℕ),
      ∃ err, create_payment enrollment? pagos payment_in student_id newId =
        .error err) ∧
    (∀ (e : Enrollment) (pagos : List Payment) (payment_in : PaymentCreate)
      (student_id newId : ℕ),
      e.estudiante_id = student_id →
      get_next_pending_payment e payment_in.inscripcion_id pagos ≠ none →
      create_payment (some e) pagos payment_in student_id newId =
        .error .attributeError) := by
  refine ⟨create_payment_error, fun e pagos pin sid nid h1 h2 => ?_⟩
  simp only [create_payment]
  rw [if_neg (by simp [h1])]
  cases hnp : get_next_pending_payment e pin.inscripcion_id pagos with
  | none => exact absurd hnp h2
  | some np => simp only [readVoucherAttrs_error]

theorem fix_get_next_empty :
    get_next_pending_payment fixEnrollment 7 [] =
      some { concepto := "Matrícula", numero_cuota := none,
             monto_sugerido := 200 } := rfl

/-- Witness for C9: the checks pass at the concrete input and the call still
returns AttributeError. -/
theorem c9_submission_never_persists_witness :
    fixEnrollment.estudiante_id = 1 ∧
    get_next_pending_payment fixEnrollment fixPC.inscripcion_id [] ≠ none ∧
    create_payment (some fixEnrollment) [] fixPC 1 100 =
      .error .attributeError :=
  ⟨rfl, by rw [show fixPC.inscripcion_id = 7 from rfl, fix_get_next_empty]; simp,
   c9_submission_never_persists.2 fixEnrollment [] fixPC 1 100 rfl
     (by rw [show fixPC.inscripcion_id = 7 from rfl, fix_get_next_empty]; simp)⟩

theorem applyOp_pagos_nil (s : SysState) (op : Op) (h : s.pagos = []) :
    applyOp s op = s := by
  cases op with
  | submit payment_in sid =>
    simp only [applyOp, submit_payment]
    obtain ⟨err, herr⟩ := create_payment_error
      (if payment_in.inscripcion_id = s.eid then some s.enrollment else none)
      s.pagos payment_in sid s.nextId
    rw [herr]
  | approve pid a now =>
    simp only [applyOp, aprobar_pago, findPayment, h, List.find?_nil]
  | reject pid a m now =>
    simp only [applyOp, rechazar_pago_endpoint, rechazar_pago, findPayment,
      h, List.find?_nil]
    split_ifs <;> rfl

theorem runOps_pagos_nil (e : Enrollment) (eid n0 : ℕ) (ops : List Op) :
    runOps ⟨eid, e, [], n0⟩ ops = ⟨eid, e, [], n0⟩ := by
  induction ops with
  | nil => rfl
  | cons op ops ih =>
    show runOps (applyOp ⟨eid, e, [], n0⟩ op) ops = _
    rw [applyOp_pagos_nil _ _ rfl]
    exact ih

/-- C4.  Starting from an enrollment with no payments, any sequence of
submit, approve and reject operations keeps every (enrollment, concepto,
numero_cuota) tuple with at most one PENDING-or-APPROVED payment; submission
only ever creates a payment for an uncovered slot; and approval fails,
leaving the state untouched, when another payment for the same tuple is
already APPROVED. -/
theorem c4_duplicate_obligation_guard :
    (∀ (e : Enrollment) (eid n0 : ℕ) (ops : List Op),
      atMostOneActive (runOps ⟨eid, e, [], n0⟩ ops).pagos) ∧
    (∀ (enrollment? : Option Enrollment) (pagos : List Payment)
      (payment_in : PaymentCreate) (student_id newId : ℕ) (p : Payment),
      create_payment enrollment? pagos payment_in student_id newId = .ok p →
      cubierto payment_in.inscripcion_id pagos p.concepto p.numero_cuota =
        false) ∧
    (∀ (s : SysState) (pid : ℕ) (admin_username : String) (now : ℤ)
      (p : Payment),
      findPayment s.pagos pid = some p →
      existeAprobadoDuplicado s.pagos p = true →
      (aprobar_pago s pid admin_username now).1 = some .valueError ∧
      (aprobar_pago s pid admin_username now).2 = s) := by
  refine ⟨fun e eid n0 ops => ?_, fun e? pagos pin sid nid p hok => ?_,
    fun s pid admin now p hfind hdup => ?_⟩
  · rw [runOps_pagos_nil]
    intro eid' c n
    simp [atMostOneActive]
  · obtain ⟨err, herr⟩ := create_payment_error e? pagos pin sid nid
    rw [herr] at hok
    cases hok
  · simp only [aprobar_pago, hfind, hdup, eq_self_iff_true, if_true]
    split_ifs with h1 <;> exact ⟨rfl, rfl⟩

theorem c7_aux_length (motivo : String) (h : motivo ≠ "") :
    ¬ motivo.length < 1 := by
  simp only [Nat.lt_one_iff, String.length]
  intro hz
  apply h
  cases motivo with
  | mk data =>
    cases data with
    | nil => rfl
    | cons a l => simp [List.length] at hz

/-- C7.  Rejecting a payment: an empty reason is stopped by the
`PaymentRejection` schema with a validation error before any state change; a
non-PENDING payment is refused with the state unchanged; with both
preconditions met the payment is set RECHAZADO with the admin identity,
verification timestamp and reason stored, and the enrollment ledger is
untouched. -/
theorem c7_reject_payment :
    (∀ (s : SysState) (pid : ℕ) (admin_username motivo : String) (now : ℤ),
      motivo = "" →
      rechazar_pago_endpoint s pid admin_username motivo now =
        (some .validationError, s)) ∧
    (∀ (s : SysState) (pid : ℕ) (admin_username motivo : String) (now : ℤ)
      (p : Payment),
      motivo ≠ "" → findPayment s.pagos pid = some p →
      p.estado_pago ≠ EstadoPago.pendiente →
      rechazar_pago_endpoint s pid admin_username motivo now =
        (some .valueError, s)) ∧
    (∀ (s : SysState) (pid : ℕ) (admin_username motivo : String) (now : ℤ)
      (p : Payment),
      motivo ≠ "" → findPayment s.pagos pid = some p →
      p.estado_pago = EstadoPago.pendiente →
      (rechazar_pago_endpoint s pid admin_username motivo now).1 = none ∧
      (rechazar_pago_endpoint s pid admin_username motivo now).2.enrollment =
        s.enrollment ∧
      (rechazar_pago_endpoint s pid admin_username motivo now).2.eid = s.eid ∧
      ∀ q ∈ (rechazar_pago_endpoint s pid admin_username motivo now).2.pagos,
        q.id = pid →
        q.estado_pago = EstadoPago.rechazado ∧
        q.verificado_por = some admin_username ∧
        q.fecha_verificacion = some now ∧
        q.motivo_rechazo = some motivo) := by
  refine ⟨fun s pid admin motivo now h => ?_,
    fun s pid admin motivo now p hm hfind hnp => ?_,
    fun s pid admin motivo now p hm hfind hp => ?_⟩
  · subst h
    simp only [rechazar_pago_endpoint]
    rw [if_pos (by decide)]
  · simp only [rechazar_pago_endpoint, rechazar_pago, hfind]
    rw [if_neg (c7_aux_length motivo hm), if_pos hnp]
  · simp only [rechazar_pago_endpoint, rechazar_pago, hfind]
    rw [if_neg (c7_aux_length motivo hm), if_neg (by simp [hp])]
    refine ⟨rfl, rfl, rfl, fun q hq hid => ?_⟩
    simp only [List.mem_map] at hq
    obtain ⟨q0, hq0, hq0eq⟩ := hq
    by_cases hbeq : q0.id == pid
    · rw [if_pos hbeq] at hq0eq
      subst hq0eq
      exact ⟨rfl, rfl, rfl, rfl⟩
    · rw [if_neg hbeq] at hq0eq
      subst hq0eq
      rw [beq_iff_eq] at hbeq
      exact absurd hid hbeq

/-- Witness for C7: rejecting the concrete pending payment succeeds and
stamps it. -/
theorem c7_reject_payment_witness :
    (rechazar_pago_endpoint (fixState fixPagosPend) 1 ("adm") ("borroso") 5).1 =
      none ∧
    (rechazar_pago_endpoint (fixState fixPagosPend) 1 ("adm") ("borroso")
      5).2.enrollment = (fixState fixPagosPend).enrollment ∧
    (rechazar_pago_endpoint (fixState fixPagosPend) 1 ("adm") ("borroso")
      5).2.eid = (fixState fixPagosPend).eid ∧
    ∀ q ∈ (rechazar_pago_endpoint (fixState fixPagosPend) 1 ("adm")
        ("borroso") 5).2.pagos,
      q.id = 1 →
      q.estado_pago = EstadoPago.rechazado ∧
      q.verificado_por = some ("adm") ∧
      q.fecha_verificacion = some 5 ∧
      q.motivo_rechazo = some ("borroso") :=
  c7_reject_payment.2.2 (fixState fixPagosPend) 1 ("adm") ("borroso") 5
    (fixPago 1 ("Matrícula") none .pendiente) (by decide) (by decide) rfl

/-- C8.  Rejecting the requisito at a position of an enrollment fails exactly
when the index is out of range, the requisito has no uploaded document, or
its state is not EN_PROCESO; on success the requisito is set RECHAZADO with
the reviewer and the reason stored and everything else unchanged. -/
theorem c8_reject_requisito (e : Enrollment) (index : ℕ)
    (username motivo : String) :
    ((∃ err, rechazar_requisito e index username motivo = .error err) ↔
      (e.requisitos.length ≤ index ∨
        ∃ r, e.requisitos.get? index = some r ∧
          (r.url = none ∨ r.estado ≠ EstadoRequisito.enProceso))) ∧
    (∀ e', rechazar_requisito e index username motivo = .ok e' →
      ∃ r, e.requisitos.get? index = some r ∧ r.url ≠ none ∧
        r.estado = EstadoRequisito.enProceso ∧
        e'.requisitos = e.requisitos.set index (Requisito.mk r.descripcion
          r.url EstadoRequisito.rechazado (some username) (some motivo)) ∧
        e'.estudiante_id = e.estudiante_id ∧ e'.curso_id = e.curso_id ∧
        e'.total_a_pagar = e.total_a_pagar ∧
        e'.total_pagado = e.total_pagado ∧
        e'.saldo_pendiente = e.saldo_pendiente ∧ e'.estado = e.estado) := by
  by_cases hlt : index < e.requisitos.length
  · have hget : e.requisitos.get? index = some (e.requisitos.get ⟨index, hlt⟩) :=
      List.get?_eq_get hlt
    by_cases hurl : (e.requisitos.get ⟨index, hlt⟩).url = none
    · have heval : rechazar_requisito e index username motivo =
          .error .valueError := by
        simp only [rechazar_requisito, dif_pos hlt]
        rw [if_pos hurl]
      refine ⟨⟨fun _ => Or.inr ⟨_, hget, Or.inl hurl⟩, fun _ => ⟨_, heval⟩⟩,
        fun e' hok => ?_⟩
      rw [heval] at hok
      cases hok
    · by_cases hest : (e.requisitos.get ⟨index, hlt⟩).estado =
          EstadoRequisito.enProceso
      · have heval : rechazar_requisito e index username motivo =
            .ok { e with requisitos := e.requisitos.set index ((e.requisitos.get ⟨index, hlt⟩).rechazar username motivo) } := by
          simp only [rechazar_requisito, dif_pos hlt]
          rw [if_neg hurl, if_neg (not_not_intro hest)]
        constructor
        · constructor
          · rintro ⟨err, herr⟩
            rw [heval] at herr
            cases herr
          · rintro (hlen | ⟨r, hr, hbad⟩)
            · omega
            · rw [hget] at hr
              injection hr with hr
              subst hr
              rcases hbad with h | h
              · exact absurd h hurl
              · exact absurd hest h
        · intro e' hok
          rw [heval] at hok
          injection hok with hok
          subst hok
          exact ⟨_, hget, hurl, hest, rfl, rfl, rfl, rfl, rfl, rfl, rfl⟩
      · have heval : rechazar_requisito e index username motivo =
            .error .valueError := by
          simp only [rechazar_requisito, dif_pos hlt]
          rw [if_neg hurl, if_pos hest]
        refine ⟨⟨fun _ => Or.inr ⟨_, hget, Or.inr hest⟩, fun _ => ⟨_, heval⟩⟩,
          fun e' hok => ?_⟩
        rw [heval] at hok
        cases hok
  · refine ⟨⟨fun _ => Or.inl (Nat.le_of_not_lt hlt), fun _ => ?_⟩,
      fun e' hok => ?_⟩
    · simp only [rechazar_requisito, dif_neg hlt]
      exact ⟨_, rfl⟩
    · simp only [rechazar_requisito, dif_neg hlt] at hok
      cases hok

/-- Witness for C8: rejecting the concrete uploaded requisito succeeds and
stores reviewer and reason. -/
theorem c8_reject_requisito_witness :
    ∃ r, fixEnrollmentReq.requisitos.get? 0 = some r ∧ r.url ≠ none ∧
      r.estado = EstadoRequisito.enProceso ∧
      fixEnrollmentReqPost.requisitos = fixEnrollmentReq.requisitos.set 0
        (Requisito.mk r.descripcion r.url EstadoRequisito.rechazado
          (some ("adm")) (some ("borroso"))) ∧
      fixEnrollmentReqPost.estudiante_id = fixEnrollmentReq.estudiante_id ∧
      fixEnrollmentReqPost.curso_id = fixEnrollmentReq.curso_id ∧
      fixEnrollmentReqPost.total_a_pagar = fixEnrollmentReq.total_a_pagar ∧
      fixEnrollmentReqPost.total_pagado = fixEnrollmentReq.total_pagado ∧
      fixEnrollmentReqPost.saldo_pendiente = fixEnrollmentReq.saldo_pendiente ∧
      fixEnrollmentReqPost.estado = fixEnrollmentReq.estado :=
  (c8_reject_requisito fixEnrollmentReq 0 ("adm") ("borroso")).2
    fixEnrollmentReqPost rfl

theorem cubierto_true_iff (eid : ℕ) (ps : List Payment) (c : String)
    (n : Option ℤ) :
    cubierto eid ps c n = true ↔
      ∃ p ∈ ps, p.inscripcion_id = eid ∧ p.activo = true ∧
        p.concepto = c ∧ p.numero_cuota = n := by
  simp only [cubierto, List.any_eq_true, List.mem_filter, Bool.and_eq_true,
    beq_iff_eq]
  constructor
  · rintro ⟨p, ⟨hp, hins, hact⟩, hc, hn⟩
    exact ⟨p, hp, hins, hact, hc, hn⟩
  · rintro ⟨p, hp, hins, hact, hc, hn⟩
    exact ⟨p, ⟨hp, hins, hact⟩, hc, hn⟩

theorem mem_coveredPairs (eid : ℕ) (ps : List Payment) (c : String)
    (n : Option ℤ) :
    (c, n) ∈ coveredPairs eid ps ↔
      ∃ p ∈ ps, p.inscripcion_id = eid ∧ p.activo = true ∧
        p.concepto = c ∧ p.numero_cuota = n := by
  simp only [coveredPairs, List.mem_map, List.mem_filter, Bool.and_eq_true,
    beq_iff_eq, Prod.mk.injEq]
  constructor
  · rintro ⟨p, ⟨hp, hins, hact⟩, hc, hn⟩
    exact ⟨p, hp, hins, hact, hc, hn⟩
  · rintro ⟨p, hp, hins, hact, hc, hn⟩
    exact ⟨p, ⟨hp, hins, hact⟩, hc, hn⟩

theorem cubierto_eq_decide (eid : ℕ) (ps : List Payment) (c : String)
    (n : Option ℤ) :
    cubierto eid ps c n = decide ((c, n) ∈ coveredPairs eid ps) := by
  have h : cubierto eid ps c n = true ↔ (c, n) ∈ coveredPairs eid ps :=
    (cubierto_true_iff eid ps c n).trans (mem_coveredPairs eid ps c n).symm
  by_cases hm : (c, n) ∈ coveredPairs eid ps
  · rw [h.mpr hm, decide_eq_true hm]
  · rw [decide_eq_false hm, ← Bool.not_eq_true, h]
    exact hm

theorem fix_monto_cuota : fixEnrollment.calcular_monto_cuota = 200 := by
  unfold Enrollment.calcular_monto_cuota fixEnrollment
  norm_num

/-- C3.  The next-obligation resolver computes the covered set as the
(concept, installment-index) pairs of the enrollment's PENDING or APPROVED
payments, returns the down payment whenever `costo_matricula > 0` and it is
uncovered, otherwise the lowest-indexed uncovered installment with amount
`(total_a_pagar - costo_matricula) / cantidad_cuotas`, otherwise none; with
installments 1 and 3 covered and 2 rejected the result is installment 2. -/
theorem c3_next_obligation :
    (∀ (e : Enrollment) (eid : ℕ) (pagos : List Payment),
      get_next_pending_payment e eid pagos = nextObligationSpec e eid pagos) ∧
    get_next_pending_payment fixEnrollment 7 fixPagosHueco =
      some { concepto := "Cuota 2", numero_cuota := some 2,
             monto_sugerido := 200 } := by
  constructor
  · intro e eid pagos
    unfold get_next_pending_payment nextObligationSpec
    have hpred : (fun i : ℕ =>
        !cubierto eid pagos ("Cuota " ++ toString i) (some (i : ℤ))) =
        (fun i : ℕ => decide (("Cuota " ++ toString i,
          (some (i : ℤ) : Option ℤ)) ∉ coveredPairs eid pagos)) := by
      funext i
      rw [cubierto_eq_decide, decide_not]
    have hcond : (0 < e.costo_matricula &&
        !cubierto eid pagos ("Matrícula") none) = true ↔
        (0 < e.costo_matricula ∧
          ("Matrícula", (none : Option ℤ)) ∉ coveredPairs eid pagos) := by
      rw [cubierto_eq_decide]
      simp
    by_cases hA : 0 < e.costo_matricula ∧
        ("Matrícula", (none : Option ℤ)) ∉ coveredPairs eid pagos
    · rw [if_pos (hcond.mpr hA), if_pos hA]
    · rw [if_neg (fun hh => hA (hcond.mp hh)), if_neg hA]
      by_cases hn : 0 < e.cantidad_cuotas
      · rw [if_pos hn, hpred]
        have hmonto : e.calcular_monto_cuota =
            (e.total_a_pagar - e.costo_matricula) / (e.cantidad_cuotas : ℚ) := by
          unfold Enrollment.calcular_monto_cuota
          rw [if_neg (Nat.pos_iff_ne_zero.mp hn)]
        rw [hmonto]
      · rw [if_neg hn]
        rw [Nat.eq_zero_of_not_pos hn]
        rfl
  · have h : get_next_pending_payment fixEnrollment 7 fixPagosHueco =
        some { concepto := "Cuota 2", numero_cuota := some 2,
               monto_sugerido := fixEnrollment.calcular_monto_cuota } := rfl
    rw [h, fix_monto_cuota]

/-- Witness for C4: approving the duplicate concretely fails and leaves the
state unchanged. -/
theorem c4_duplicate_obligation_guard_witness :
    (aprobar_pago (fixState fixPagosDup) 2 ("adm") 5).1 =
      some .valueError ∧
    (aprobar_pago (fixState fixPagosDup) 2 ("adm") 5).2 =
      fixState fixPagosDup :=
  c4_duplicate_obligation_guard.2.2 (fixState fixPagosDup) 2 ("adm") 5
    (fixPago 2 ("Cuota 1") (some 1) .pendiente) (by decide) (by decide)

/-- C5 counterexample: the resolution uses the percentage of an
active-but-expired referenced discount (the validity window is never
consulted), and an inactive referenced discount resolves to 0 instead of
falling back to the supplied literal 5. -/
theorem c5_counterexample :
    resolveDescuentoEstudiante [(7, fixExpiredDiscount)] fixEinRef =
      (50, some 7) ∧
    fixExpiredDiscount.es_valido_en_fecha 20 = false ∧
    fixExpiredDiscount.activo = true ∧
    resolveDescuentoEstudiante [(7, fixInactiveDiscount)] fixEinRef =
      (0, none) ∧
    fixEinRef.descuento_personalizado = some 5 ∧ (5 : ℚ) ≠ 0 :=
  ⟨rfl, rfl, rfl, rfl, rfl, by norm_num⟩

/-- C5 amended: for each of the two discount resolutions (the course-level
one coincides with the student-level resolver on the corresponding inputs),
a referenced Discount's percentage is used exactly when the record is found
and active — the validity window is not consulted; a missing or inactive
reference resolves to 0 without consulting the literal; with no reference
the literal is used (absent or 0 giving 0); resolution is total (never
raises) and the result lies in [0, 100] whenever the stored percentages and
the literal do. -/
theorem c5_discount_resolution :
    (∀ (db : List (ℕ × Discount)) (course : Course),
      resolveDescuentoCurso db course = resolveDescuentoEstudiante db
        { estudiante_id := 0, curso_id := 0,
          descuento_id := course.descuento_id,
          descuento_personalizado := course.descuento_curso }) ∧
    (∀ (db : List (ℕ × Discount)) (ein : EnrollmentCreate) (did : ℕ)
      (d : Discount),
      ein.descuento_id = some did → findDiscount db did = some d →
      d.activo = true →
      resolveDescuentoEstudiante db ein = (d.porcentaje, some did)) ∧
    (∀ (db : List (ℕ × Discount)) (ein : EnrollmentCreate) (did : ℕ),
      ein.descuento_id = some did →
      (findDiscount db did = none ∨
        ∃ d, findDiscount db did = some d ∧ d.activo = false) →
      resolveDescuentoEstudiante db ein = (0, none)) ∧
    (∀ (db : List (ℕ × Discount)) (ein : EnrollmentCreate) (c : ℚ),
      ein.descuento_id = none → ein.descuento_personalizado = some c →
      c ≠ 0 → resolveDescuentoEstudiante db ein = (c, none)) ∧
    (∀ (db : List (ℕ × Discount)) (ein : EnrollmentCreate),
      ein.descuento_id = none →
      (ein.descuento_personalizado = none ∨
        ein.descuento_personalizado = some 0) →
      resolveDescuentoEstudiante db ein = (0, none)) ∧
    (∀ (db : List (ℕ × Discount)) (ein : EnrollmentCreate),
      (∀ p ∈ db, 0 ≤ (p : ℕ × Discount).2.porcentaje ∧
        p.2.porcentaje ≤ 100) →
      (∀ c, ein.descuento_personalizado = some c → 0 ≤ c ∧ c ≤ 100) →
      0 ≤ (resolveDescuentoEstudiante db ein).1 ∧
        (resolveDescuentoEstudiante db ein).1 ≤ 100) := by
  refine ⟨fun db course => rfl, fun db ein did d h hf ha => ?_,
    fun db ein did h hcase => ?_, fun db ein c h hc hcne => ?_,
    fun db ein h hcase => ?_, fun db ein hdb hlit => ?_⟩
  · simp only [resolveDescuentoEstudiante, h, hf, ha, if_true]
  · rcases hcase with hf | ⟨d, hf, ha⟩
    · simp only [resolveDescuentoEstudiante, h, hf]
    · simp only [resolveDescuentoEstudiante, h, hf, ha, Bool.false_eq_true,
        if_false]
  · simp only [resolveDescuentoEstudiante, h, hc, if_neg hcne]
  · rcases hcase with hc | hc
    · simp only [resolveDescuentoEstudiante, h, hc]
    · simp only [resolveDescuentoEstudiante, h, hc, ite_self]
  · cases hdid : ein.descuento_id with
    | some did =>
      simp only [resolveDescuentoEstudiante, hdid]
      cases hf : findDiscount db did with
      | none => exact ⟨le_refl 0, by norm_num⟩
      | some d =>
        dsimp only
        by_cases ha : d.activo
        · rw [if_pos ha]
          obtain ⟨pr, hpr, hpr2⟩ := Option.map_eq_some'.mp hf
          have hmem := List.mem_of_find?_eq_some hpr
          have hbd := hdb pr hmem
          rw [hpr2] at hbd
          exact ⟨hbd.1, hbd.2⟩
        · rw [if_neg ha]
          exact ⟨le_refl 0, by norm_num⟩
    | none =>
      simp only [resolveDescuentoEstudiante, hdid]
      cases hc : ein.descuento_personalizado with
      | none => exact ⟨le_refl 0, by norm_num⟩
      | some c =>
        dsimp only
        by_cases hc0 : c = 0
        · rw [if_pos hc0]
          exact ⟨le_refl 0, by norm_num⟩
        · rw [if_neg hc0]
          exact hlit c hc

/-- Witness for C5 amended: the resolution at a found, active referenced
discount. -/
theorem c5_discount_resolution_witness :
    resolveDescuentoEstudiante [(7, fixActiveDiscount)] fixEinRef =
      (20, some 7) :=
  c5_discount_resolution.2.1 [(7, fixActiveDiscount)] fixEinRef 7
    fixActiveDiscount rfl rfl rfl

theorem toString_intCast (n : ℕ) : toString ((n : ℤ)) = toString n := rfl

theorem pyInt_natCast (k : ℕ) : pyInt (k : ℚ) = k := by
  unfold pyInt
  rw [if_pos (by positivity)]
  exact Int.floor_natCast k

theorem fix_esta_completamente :
    fixEnrollment.esta_completamente_pagado = false :=
  decide_eq_false (by norm_num : ¬ ((1000 : ℚ) ≤ 1/100))

theorem fix_siguiente_pago :
    fixEnrollment.siguiente_pago =
      { concepto := "Matrícula", numero_cuota := 0, monto_sugerido := 200 } := by
  unfold Enrollment.siguiente_pago
  rw [fix_esta_completamente]
  rw [if_neg (by simp)]
  have hcond : fixEnrollment.total_pagado < fixEnrollment.costo_matricula ∧
      1/100 < fixEnrollment.costo_matricula - fixEnrollment.total_pagado := by
    norm_num [fixEnrollment]
  rw [if_pos hcond]
  have h : fixEnrollment.costo_matricula - fixEnrollment.total_pagado =
      (200 : ℚ) := by norm_num [fixEnrollment]
  rw [h, pyRound2_eq_self (show ((20000 : ℤ) : ℚ) = 100 * 200 by norm_num)]

theorem cubierto_canonical_matricula (eid : ℕ) (e : Enrollment) (k : ℕ) :
    cubierto eid (canonicalPagos eid e k) ("Matrícula") none =
      decide (0 < e.costo_matricula) := by
  by_cases hm : 0 < e.costo_matricula
  · rw [decide_eq_true hm, cubierto_true_iff]
    refine ⟨matriculaPago eid e, ?_, rfl, rfl, rfl, rfl⟩
    unfold canonicalPagos
    rw [if_pos hm]
    exact List.mem_append.mpr (Or.inl (List.mem_singleton.mpr rfl))
  · rw [decide_eq_false hm, Bool.eq_false_iff]
    rw [Ne, cubierto_true_iff]
    rintro ⟨p, hp, hins, hact, hc, hn⟩
    unfold canonicalPagos at hp
    rw [if_neg hm] at hp
    simp only [List.nil_append, List.mem_map] at hp
    obtain ⟨i, hi, rfl⟩ := hp
    simp [cuotaPago] at hn

theorem cubierto_canonical_cuota (eid : ℕ) (e : Enrollment) (k i : ℕ)
    (hi : 1 ≤ i) :
    cubierto eid (canonicalPagos eid e k) ("Cuota " ++ toString i)
      (some (i : ℤ)) = decide (i ≤ k) := by
  by_cases hik : i ≤ k
  · rw [decide_eq_true hik, cubierto_true_iff]
    refine ⟨cuotaPago eid e i, ?_, rfl, rfl, rfl, rfl⟩
    unfold canonicalPagos
    refine List.mem_append.mpr (Or.inr ?_)
    exact List.mem_map.mpr ⟨i, List.mem_range'_1.mpr ⟨hi, by omega⟩, rfl⟩
  · rw [decide_eq_false hik, Bool.eq_false_iff]
    rw [Ne, cubierto_true_iff]
    rintro ⟨p, hp, hins, hact, hc, hn⟩
    unfold canonicalPagos at hp
    rcases List.mem_append.mp hp with hp1 | hp2
    · split_ifs at hp1 with hm
      · rw [List.mem_singleton] at hp1
        subst hp1
        simp [matriculaPago] at hn
      · cases hp1
    · obtain ⟨j, hj, rfl⟩ := List.mem_map.mp hp2
      rw [List.mem_range'_1] at hj
      simp only [cuotaPago, Option.some.injEq, Nat.cast_inj] at hn
      omega

theorem find?_range'_gap (p : ℕ → Bool) (k : ℕ) :
    ∀ (len a : ℕ),
      (∀ i, a ≤ i → i < a + len → (p i = true ↔ k + 1 ≤ i)) →
      a ≤ k + 1 → k + 1 < a + len →
      (List.range' a len).find? p = some (k + 1) := by
  intro len
  induction len with
  | zero =>
    intro a h ha hl
    omega
  | succ len ih =>
    intro a h ha hl
    rw [List.range'_succ]
    by_cases hak : a = k + 1
    · rw [List.find?_cons_of_pos _ ((h a (le_refl a) (by omega)).mpr
        (by omega))]
      rw [hak]
    · rw [List.find?_cons_of_neg _ (by rw [h a (le_refl a) (by omega)]; omega)]
      exact ih (a + 1) (fun i h1 h2 => h i (by omega) (by omega)) (by omega)
        (by omega)

theorem get_next_canonical (e : Enrollment) (eid k : ℕ)
    (hn1 : 1 ≤ e.cantidad_cuotas) (hk : k ≤ e.cantidad_cuotas) :
    get_next_pending_payment e eid (canonicalPagos eid e k) =
      (if k < e.cantidad_cuotas then
        some { concepto := "Cuota " ++ toString (k + 1),
               numero_cuota := some ((k + 1 : ℕ) : ℤ),
               monto_sugerido := e.calcular_monto_cuota }
      else none) := by
  unfold get_next_pending_payment
  rw [cubierto_canonical_matricula, Bool.and_not_self]
  rw [if_neg (by simp)]
  rw [if_pos (by omega : 0 < e.cantidad_cuotas)]
  by_cases hkn : k < e.cantidad_cuotas
  · rw [if_pos hkn]
    rw [find?_range'_gap _ k e.cantidad_cuotas 1 ?hpred (by omega) (by omega)]
    case hpred =>
      intro i h1 h2
      rw [cubierto_canonical_cuota eid e k i h1, Bool.not_eq_true',
        decide_eq_false_iff_not]
      omega
  · rw [if_neg hkn]
    rw [List.find?_eq_none.mpr ?hnone]
    case hnone =>
      intro x hx
      rw [List.mem_range'_1] at hx
      rw [cubierto_canonical_cuota eid e k x hx.1,
        decide_eq_true (show x ≤ k by omega)]
      simp

/-- C10 counterexample: with a single PENDING down-payment record, the
record-based resolver (slot covered) answers installment 1 while the
amount-based property (no money booked yet) still answers the down payment:
the two implementations disagree on the concept. -/
theorem c10_counterexample :
    get_next_pending_payment fixEnrollment 7 fixPagosPend =
      some { concepto := "Cuota 1", numero_cuota := some 1,
             monto_sugerido := 200 } ∧
    fixEnrollment.siguiente_pago =
      { concepto := "Matrícula", numero_cuota := 0,
        monto_sugerido := 200 } ∧
    ("Cuota 1" : String) ≠ "Matrícula" := by
  refine ⟨?_, fix_siguiente_pago, by decide⟩
  have h : get_next_pending_payment fixEnrollment 7 fixPagosPend =
      some { concepto := "Cuota 1", numero_cuota := some 1,
             monto_sugerido := fixEnrollment.calcular_monto_cuota } := rfl
  rw [h, fix_monto_cuota]

/-- C10 amended: the two next-obligation implementations agree on ledgers
whose payment history is the canonical APPROVED record set (the down payment
when one is due and installments 1..k), with `total_pagado` matching those
records, the stored balance consistent, and the two standing amounts exact
two-decimal values above the 0.01 tolerance: same concept, same amount,
Matrícula's index rendered 0 by `siguiente_pago` and `none` by
`get_next_pending_payment`, and a fully covered ledger rendered as the
completed marker versus `none`. -/
theorem c10_next_payment_agreement :
    ∀ (e : Enrollment) (eid k : ℕ),
    1 ≤ e.cantidad_cuotas →
    k ≤ e.cantidad_cuotas →
    (e.costo_matricula = 0 ∨ 1/100 < e.costo_matricula) →
    pyRound2 e.costo_matricula = e.costo_matricula →
    1/100 < e.calcular_monto_cuota →
    pyRound2 e.calcular_monto_cuota = e.calcular_monto_cuota →
    e.saldo_pendiente = e.total_a_pagar - e.total_pagado →
    ((0 < e.costo_matricula → e.total_pagado = 0 →
       nextAgrees (get_next_pending_payment e eid []) e.siguiente_pago) ∧
     (e.total_pagado =
        (if 0 < e.costo_matricula then e.costo_matricula else 0) +
          k * e.calcular_monto_cuota →
       nextAgrees (get_next_pending_payment e eid (canonicalPagos eid e k))
         e.siguiente_pago)) := by
  intro e eid k hn1 hk hmat0 hmatr hm hmr hsaldo
  have hq1 : (1 : ℚ) ≤ (e.cantidad_cuotas : ℚ) := by exact_mod_cast hn1
  have hmonto : e.calcular_monto_cuota =
      (e.total_a_pagar - e.costo_matricula) / (e.cantidad_cuotas : ℚ) := by
    unfold Enrollment.calcular_monto_cuota
    rw [if_neg (by omega)]
  have htap : e.total_a_pagar - e.costo_matricula =
      (e.cantidad_cuotas : ℚ) * e.calcular_monto_cuota := by
    rw [hmonto]
    field_simp
  have hmpos : 0 < e.calcular_monto_cuota := lt_trans (by norm_num) hm
  have hmatnn : 0 ≤ e.costo_matricula := by
    rcases hmat0 with h | h
    · rw [h]
    · linarith
  constructor
  · intro hmt hz
    have hga : get_next_pending_payment e eid [] =
        some { concepto := "Matrícula", numero_cuota := none,
               monto_sugerido := e.costo_matricula } := by
      unfold get_next_pending_payment
      rw [if_pos (by simp [cubierto, decide_eq_true hmt])]
    rw [hga]
    have hesta : e.esta_completamente_pagado = false := by
      unfold Enrollment.esta_completamente_pagado
      rw [decide_eq_false]
      rw [hsaldo, hz, sub_zero]
      have hnm : e.calcular_monto_cuota ≤
          (e.cantidad_cuotas : ℚ) * e.calcular_monto_cuota := by
        nlinarith
      intro hle
      nlinarith [htap]
    unfold Enrollment.siguiente_pago
    rw [hesta, if_neg (by simp)]
    have hcond : e.total_pagado < e.costo_matricula ∧
        1/100 < e.costo_matricula - e.total_pagado := by
      refine ⟨by rw [hz]; exact hmt, ?_⟩
      rw [hz, sub_zero]
      rcases hmat0 with h | h
      · rw [h] at hmt
        exact absurd hmt (lt_irrefl 0)
      · exact h
    rw [if_pos hcond]
    refine ⟨rfl, ?_, rfl⟩
    rw [hz, sub_zero, hmatr]
  · intro htp
    have hmatp : e.total_pagado =
        e.costo_matricula + (k : ℚ) * e.calcular_monto_cuota := by
      rcases hmat0 with h0 | hpos
      · rw [htp, if_neg (by rw [h0]; exact lt_irrefl 0), h0, zero_add]
      · rw [htp, if_pos (by linarith)]
    have hsaldo2 : e.saldo_pendiente =
        ((e.cantidad_cuotas : ℚ) - (k : ℚ)) * e.calcular_monto_cuota := by
      rw [hsaldo, hmatp]
      linear_combination htap
    have hk0 : (0 : ℚ) ≤ (k : ℚ) := Nat.cast_nonneg k
    rw [get_next_canonical e eid k hn1 hk]
    by_cases hkn : k < e.cantidad_cuotas
    · rw [if_pos hkn]
      have hqk1 : (k : ℚ) + 1 ≤ (e.cantidad_cuotas : ℚ) := by
        exact_mod_cast hkn
      have hesta : e.esta_completamente_pagado = false := by
        unfold Enrollment.esta_completamente_pagado
        rw [decide_eq_false]
        rw [hsaldo2]
        intro hle
        nlinarith
      unfold Enrollment.siguiente_pago
      rw [hesta, if_neg (by simp)]
      have hcond : ¬(e.total_pagado < e.costo_matricula ∧
          1/100 < e.costo_matricula - e.total_pagado) := by
        rintro ⟨h1, _⟩
        rw [hmatp] at h1
        nlinarith
      rw [if_neg hcond]
      dsimp only
      rw [if_pos (by omega : 0 < e.cantidad_cuotas)]
      have hpag : max 0 (e.total_pagado - e.costo_matricula) =
          (k : ℚ) * e.calcular_monto_cuota := by
        rw [hmatp]
        rw [show e.costo_matricula + (k : ℚ) * e.calcular_monto_cuota -
          e.costo_matricula = (k : ℚ) * e.calcular_monto_cuota from by ring]
        exact max_eq_right (mul_nonneg hk0 (le_of_lt hmpos))
      rw [hpag, ← hmonto]
      have hcp : pyInt ((k : ℚ) * e.calcular_monto_cuota /
          e.calcular_monto_cuota) = (k : ℤ) := by
        rw [mul_div_assoc, div_self (ne_of_gt hmpos), mul_one, pyInt_natCast]
      rw [hcp]
      by_cases hlast : (e.cantidad_cuotas : ℤ) ≤ (k : ℤ) + 1
      · have hkeq : k + 1 = e.cantidad_cuotas := by omega
        rw [if_pos hlast]
        have hsm : e.saldo_pendiente = e.calcular_monto_cuota := by
          rw [hsaldo2, ← hkeq]
          push_cast
          ring
        refine ⟨?_, ?_, ?_⟩
        · rw [← hkeq, toString_intCast]
        · rw [hsm, hmr]
        · rw [Option.getD_some, ← hkeq]
      · rw [if_neg hlast]
        refine ⟨?_, ?_, ?_⟩
        · rw [show ((k : ℤ) + 1) = ((k + 1 : ℕ) : ℤ) from by push_cast; ring,
            toString_intCast]
        · rw [hmr]
        · rw [Option.getD_some]
          push_cast
          ring
    · rw [if_neg hkn]
      have hkeq : k = e.cantidad_cuotas := by omega
      have hesta : e.esta_completamente_pagado = true := by
        unfold Enrollment.esta_completamente_pagado
        rw [decide_eq_true]
        rw [hsaldo2, hkeq, sub_self, zero_mul]
        norm_num
      unfold nextAgrees
      unfold Enrollment.siguiente_pago
      rw [hesta, if_pos rfl]

/-- Witness for C10 amended: with the down payment and installment 1 paid
(400 of 1000 booked), both implementations answer installment 2 for 200. -/
theorem c10_next_payment_agreement_witness :
    nextAgrees (get_next_pending_payment fixEnrollmentMid 7
      (canonicalPagos 7 fixEnrollmentMid 1))
      fixEnrollmentMid.siguiente_pago := by
  have hcalc : fixEnrollmentMid.calcular_monto_cuota = 200 := by
    unfold Enrollment.calcular_monto_cuota fixEnrollmentMid fixEnrollment
    norm_num
  have h200 : pyRound2 (200 : ℚ) = 200 :=
    pyRound2_eq_self (show ((20000 : ℤ) : ℚ) = 100 * 200 by norm_num)
  refine (c10_next_payment_agreement fixEnrollmentMid 7 1 (by decide)
    (by decide) (Or.inr (by norm_num [fixEnrollmentMid, fixEnrollment]))
    ?_ ?_ ?_ ?_).2 ?_
  · exact h200
  · rw [hcalc]
    norm_num
  · rw [hcalc]
    exact h200
  · norm_num [fixEnrollmentMid, fixEnrollment]
  · rw [hcalc]
    norm_num [fixEnrollmentMid, fixEnrollment]

end KyC
